import Mathlib

/-!
Shallow embedding of the ccguide stop-hook pipeline
(`src/gemini_decision_engine.py`, `src/gemini_suggestion_engine.py`,
`src/stop_hook_handler.py`).

File-system and network effects are made explicit:
* the cooldown file is a value `Option (Option ℚ)` — `none` means the file
  is absent, `some none` means it exists but reading/parsing it fails,
  `some (some t)` means its contents parse to the timestamp `t`;
* the current wall-clock time is a field of the engine state;
* each remote Gemini call is an oracle outcome `Except String String`
  (`.error msg` is a raised exception, `.ok text` is `response.text`);
* reading the transcript file is an outcome `Option String`
  (`none` means `open`/`read` raised).
Booleans recording whether the remote classifier was consulted and whether
the decision stage ran are threaded through the results so that
"no network call is made" claims are statable.
-/

namespace CCGuideModel

/-- Python `str.lower()` (ASCII-faithful, which covers every keyword table). -/
def pyLower (s : String) : String := ⟨s.data.map Char.toLower⟩

/-- Python `str.upper()` (ASCII-faithful). -/
def pyUpper (s : String) : String := ⟨s.data.map Char.toUpper⟩

/-- Python `str.strip()`: drop leading and trailing whitespace. -/
def pyStrip (s : String) : String :=
  ⟨((s.data.dropWhile Char.isWhitespace).reverse.dropWhile Char.isWhitespace).reverse⟩

/-- Python substring test `needle in haystack`, on character lists. -/
def containsSub (needle : List Char) : List Char → Bool
  | [] => needle.isEmpty
  | c :: rest => needle.isPrefixOf (c :: rest) || containsSub needle rest

/-- Python `needle in haystack` on strings. -/
def substrB (needle haystack : String) : Bool := containsSub needle.data haystack.data

/-- Helper for `pySplitWs`: walk the characters, accumulating the current
word (reversed) and flushing it at each whitespace run. -/
def splitWsAux : List Char → List Char → List String
  | [], acc => if acc.isEmpty then [] else [⟨acc.reverse⟩]
  | c :: rest, acc =>
      if c.isWhitespace then
        (if acc.isEmpty then [] else [⟨acc.reverse⟩]) ++ splitWsAux rest []
      else splitWsAux rest (c :: acc)

/-- Python `str.split()` with no argument: split on whitespace runs, no empties. -/
def pySplitWs (s : String) : List String := splitWsAux s.data []

/-- The relevant keys of the config dict; `none` models an absent key, and the
getters below apply the same defaults as `config.get(key, default)`. -/
structure Config where
  enable_suggestions : Option Bool
  min_session_length : Option Int
  suggestion_cooldown : Option ℚ

/-- Getter for `self.config.get('enable_suggestions', True)`. -/
def Config.enableSuggestions (c : Config) : Bool := c.enable_suggestions.getD true

/-- Getter for `self.config.get('min_session_length', 100)`. -/
def Config.minSessionLength (c : Config) : Int := c.min_session_length.getD 100

/-- Getter for `self.config.get('suggestion_cooldown', 300)`. -/
def Config.suggestionCooldown (c : Config) : ℚ := c.suggestion_cooldown.getD 300

/-- Mutable world the decision engine touches: the cooldown file
(`~/.ccguide/last_suggestion.txt`) and the current time `time.time()`. -/
structure EngineState where
  cooldownFile : Option (Option ℚ)
  now : ℚ

/-- Embeds `GeminiDecisionEngine.is_in_cooldown`.  `session_id` is accepted (as in the
source) but only ever used in log messages; any read or parse failure is caught
and falls through to `return False`. -/
def is_in_cooldown (cfg : Config) (st : EngineState) (session_id : String) : Bool :=
  match st.cooldownFile with
  | none => false
  | some none => false
  | some (some last_suggestion_time) =>
      decide (st.now - last_suggestion_time < cfg.suggestionCooldown)

/-- Embeds `GeminiDecisionEngine.update_cooldown`: overwrite the cooldown file with the
current timestamp. -/
def update_cooldown (st : EngineState) : EngineState :=
  { st with cooldownFile := some (some st.now) }

/-- The cheap feature record built by
`GeminiDecisionEngine.analyze_session_context`. -/
structure SessionAnalysis where
  length : Nat
  has_code : Bool
  has_errors : Bool
  has_testing : Bool
  has_git : Bool
  complexity_indicators : Nat

/-- Embeds `GeminiDecisionEngine.analyze_session_context`. -/
def analyze_session_context (session_context : String) : SessionAnalysis :=
  let cl := pyLower session_context
  { length := session_context.length
    has_code := ["def ", "function", "class ", "import ", "const ", "var ", "let "].any
      (fun k => substrB k cl)
    has_errors := ["error", "exception", "failed", "traceback", "syntax error"].any
      (fun k => substrB k cl)
    has_testing := ["test", "pytest", "unittest", "jest", "spec"].any
      (fun k => substrB k cl)
    has_git := ["git ", "commit", "branch", "merge", "pull request"].any
      (fun k => substrB k cl)
    complexity_indicators :=
      ((pySplitWs session_context).filter
        (fun w => ["todo", "fixme", "hack", "temp"].contains (pyLower w))).length }

/-- Embeds `GeminiDecisionEngine._fallback_decision`. -/
def fallback_decision (analysis : SessionAnalysis) : Bool :=
  let score : Nat :=
    (if analysis.length > 1000 then 1 else 0) +
    (if analysis.has_code then 2 else 0) +
    (if analysis.has_errors then 1 else 0) +
    (if analysis.complexity_indicators > 0 then 1 else 0)
  decide (score ≥ 3)

/-- Outcome of one `should_suggest` call: the returned boolean, the resulting
world state, and whether `self.model.generate_content` was attempted. -/
structure DecisionResult where
  verdict : Bool
  state : EngineState
  remoteCalled : Bool

/-- Embeds `GeminiDecisionEngine.should_suggest`.  `remote` is the outcome of the
single `generate_content` call (`.ok r` with `r = response.text`, or
`.error e` for a raised exception, which the source catches and routes to
`_fallback_decision`). -/
def should_suggest (session_id session_context : String) (cfg : Config)
    (st : EngineState) (remote : Except String String) : DecisionResult :=
  if cfg.enableSuggestions = false then ⟨false, st, false⟩
  else if (session_context.length : Int) < cfg.minSessionLength then ⟨false, st, false⟩
  else if is_in_cooldown cfg st session_id then ⟨false, st, false⟩
  else
    let analysis := analyze_session_context session_context
    match remote with
    | Except.ok replyText =>
        let decision := pyUpper (pyStrip replyText)
        let sh := decision == "YES"
        ⟨sh, if sh then update_cooldown st else st, true⟩
    | Except.error _ =>
        let sh := fallback_decision analysis
        ⟨sh, if sh then update_cooldown st else st, true⟩

/-- Keyword table of `GeminiSuggestionEngine._detect_languages`, in the
insertion order of the Python dict (which `for ... in dict.items()` preserves). -/
def language_indicators : List (String × List String) :=
  [ ("python", [".py", "def ", "import ", "python", "pip", "pytest"]),
    ("javascript", [".js", ".ts", ".jsx", ".tsx", "function", "const ", "npm", "node"]),
    ("java", [".java", "public class", "import java", "maven", "gradle"]),
    ("c++", [".cpp", ".h", "#include", "std::", "cmake"]),
    ("rust", [".rs", "fn ", "use ", "cargo", "impl "]),
    ("go", [".go", "func ", "package ", "import "]),
    ("html", [".html", "<html>", "<div>", "<script>"]),
    ("css", [".css", "style", "display:", "margin:"]),
    ("sql", [".sql", "SELECT", "FROM", "WHERE", "INSERT"]),
    ("shell", [".sh", "#!/bin/bash", "chmod", "mkdir"]) ]

/-- Embeds `GeminiSuggestionEngine._detect_languages`.  The indicators are kept
verbatim: the source lowercases the context but not the indicators, so the
four uppercase SQL keywords can only fail to match, exactly as in the code. -/
def detect_languages (context : String) : List String :=
  let context_lower := pyLower context
  (language_indicators.filter
    (fun li => li.2.any (fun ind => substrB ind context_lower))).map (fun li => li.1)

/-- Keyword table of `GeminiSuggestionEngine._detect_frameworks`. -/
def framework_indicators : List (String × List String) :=
  [ ("react", ["react", "jsx", "usestate", "useeffect", "component"]),
    ("vue", ["vue", "@click", "v-model", "mounted()"]),
    ("angular", ["angular", "@component", "@injectable", "ngmodel"]),
    ("flask", ["flask", "app.route", "@app.route", "render_template"]),
    ("django", ["django", "models.py", "views.py", "urls.py"]),
    ("express", ["express", "app.get", "app.post", "middleware"]),
    ("spring", ["spring", "@controller", "@service", "@autowired"]),
    ("tensorflow", ["tensorflow", "keras", "model.fit", "neural"]),
    ("pytorch", ["pytorch", "torch", "nn.module", "tensor"]),
    ("pandas", ["pandas", "dataframe", "pd.read", "groupby"]),
    ("numpy", ["numpy", "np.array", "ndarray", "matrix"]) ]

/-- Embeds `GeminiSuggestionEngine._detect_frameworks`. -/
def detect_frameworks (context : String) : List String :=
  let context_lower := pyLower context
  (framework_indicators.filter
    (fun fi => fi.2.any (fun ind => substrB ind context_lower))).map (fun fi => fi.1)

/-- Keyword table of `GeminiSuggestionEngine._detect_tools`. -/
def tool_indicators : List (String × List String) :=
  [ ("git", ["git add", "git commit", "git push", "git pull"]),
    ("docker", ["docker", "dockerfile", "docker-compose"]),
    ("kubernetes", ["kubectl", "k8s", "deployment.yaml"]),
    ("aws", ["aws", "ec2", "s3", "lambda", "cloudformation"]),
    ("ci/cd", ["github actions", "jenkins", "ci.yml", ".github/workflows"]),
    ("testing", ["test", "pytest", "jest", "unittest", "mocha"]),
    ("linting", ["eslint", "pylint", "flake8", "prettier"]) ]

/-- Embeds `GeminiSuggestionEngine._detect_tools`. -/
def detect_tools (context : String) : List String :=
  let context_lower := pyLower context
  (tool_indicators.filter
    (fun ti => ti.2.any (fun ind => substrB ind context_lower))).map (fun ti => ti.1)

/-- Keyword table of `GeminiSuggestionEngine._detect_patterns`. -/
def pattern_indicators : List (String × List String) :=
  [ ("api_development", ["api", "endpoint", "rest", "json", "request", "response"]),
    ("database_work", ["database", "sql", "query", "table", "migration"]),
    ("frontend_work", ["frontend", "ui", "component", "styling", "responsive"]),
    ("backend_work", ["backend", "server", "authentication", "middleware"]),
    ("data_analysis", ["data", "analysis", "visualization", "statistics"]),
    ("machine_learning", ["ml", "model", "training", "prediction", "algorithm"]),
    ("devops", ["deployment", "infrastructure", "monitoring", "scaling"]),
    ("security", ["authentication", "authorization", "encryption", "security"]) ]

/-- Embeds `GeminiSuggestionEngine._detect_patterns`: a pattern is reported when at
least two of its indicators occur. -/
def detect_patterns (context : String) : List String :=
  let context_lower := pyLower context
  (pattern_indicators.filter
    (fun pi => ((pi.2.filter (fun ind => substrB ind context_lower)).length ≥ 2 : Bool))).map
    (fun pi => pi.1)

/-- Keyword table of `GeminiSuggestionEngine._detect_potential_issues`. -/
def issue_patterns : List (String × List String) :=
  [ ("hardcoded_credentials", ["password =", "api_key =", "secret =", "token ="]),
    ("missing_error_handling", ["except:", "catch", "try:"]),
    ("code_duplication", ["todo", "fixme", "hack", "temporary"]),
    ("performance_concerns", ["loop", "nested", "n+1", "timeout"]),
    ("security_concerns", ["eval(", "exec(", "shell=true", "sql injection"]),
    ("testing_gaps", ["# no tests", "untested", "manual testing"]) ]

/-- Embeds `GeminiSuggestionEngine._detect_potential_issues`. -/
def detect_potential_issues (context : String) : List String :=
  let context_lower := pyLower context
  (issue_patterns.filter
    (fun ip => ip.2.any (fun ind => substrB ind context_lower))).map (fun ip => ip.1)

/-- Embeds `GeminiSuggestionEngine._classify_session_type`: an if/elif chain over
lowercased-context keyword tests, with `general_development` as the final else. -/
def classify_session_type (context : String) : String :=
  let context_lower := pyLower context
  if ["new project", "initial", "setup", "scaffold"].any (fun w => substrB w context_lower) then
    "project_setup"
  else if ["bug", "fix", "error", "debug"].any (fun w => substrB w context_lower) then
    "bug_fixing"
  else if ["feature", "implement", "add", "create"].any (fun w => substrB w context_lower) then
    "feature_development"
  else if ["refactor", "cleanup", "optimize", "improve"].any (fun w => substrB w context_lower) then
    "refactoring"
  else if ["test", "testing", "spec", "coverage"].any (fun w => substrB w context_lower) then
    "testing"
  else if ["deploy", "release", "production", "ci/cd"].any (fun w => substrB w context_lower) then
    "deployment"
  else
    "general_development"

/-- The deep feature record built by
`GeminiSuggestionEngine.analyze_session_components`. -/
structure SessionComponents where
  languages : List String
  frameworks : List String
  tools : List String
  patterns : List String
  issues : List String
  session_type : String

/-- Embeds `GeminiSuggestionEngine.analyze_session_components`. -/
def analyze_session_components (session_context : String) : SessionComponents :=
  { languages := detect_languages session_context
    frameworks := detect_frameworks session_context
    tools := detect_tools session_context
    patterns := detect_patterns session_context
    issues := detect_potential_issues session_context
    session_type := classify_session_type session_context }

/-- The session-context footer built inside
`GeminiSuggestionEngine._format_suggestions`.  The Python source writes the
escape sequences as literal backslash-n pairs (`"\\n"` inside a normal string),
which is reproduced here. -/
def session_footer (analysis : SessionComponents) : String :=
  let si := "\\n\\n---\\n*Session Analysis: " ++ analysis.session_type ++ "*"
  let si := if analysis.languages ≠ [] then
      si ++ " *| Languages: " ++ String.intercalate ", " analysis.languages ++ "*"
    else si
  if analysis.frameworks ≠ [] then
    si ++ " *| Frameworks: " ++ String.intercalate ", " analysis.frameworks ++ "*"
  else si

/-- Embeds `GeminiSuggestionEngine._format_suggestions`. -/
def format_suggestions (suggestions : String) (analysis : SessionComponents) : String :=
  suggestions ++ session_footer analysis

/-- The fixed disclaimer `_generate_fallback_suggestions` always ends with. -/
def unavailable_note : String :=
  "\\n*CCGuide AI suggestions temporarily unavailable - using fallback guidance*"

/-- Embeds `GeminiSuggestionEngine._generate_fallback_suggestions`. -/
def generate_fallback_suggestions (analysis : SessionComponents) : String :=
  let fallback := "## 🧭 CCGuide Suggestions\\n\\n"
  let fallback := if analysis.session_type = "bug_fixing" then
      fallback ++ "**Bug Fixing Session Detected**\\n"
        ++ "- Consider adding tests to prevent regression\\n"
        ++ "- Document the root cause in comments\\n"
        ++ "- Review error handling around the fix\\n\\n"
    else if analysis.session_type = "feature_development" then
      fallback ++ "**Feature Development Session Detected**\\n"
        ++ "- Write tests before or alongside implementation\\n"
        ++ "- Consider breaking down large features into smaller components\\n"
        ++ "- Document new functionality\\n\\n"
    else
      fallback ++ "**Development Session Detected**\\n"
        ++ "- Consider adding or updating tests\\n"
        ++ "- Review code for security best practices\\n"
        ++ "- Ensure proper error handling\\n\\n"
  let fallback := if analysis.languages ≠ [] then
      fallback ++ "**Technologies Used:** " ++ String.intercalate ", " analysis.languages ++ "\\n"
    else fallback
  fallback ++ unavailable_note

/-- Embeds `GeminiSuggestionEngine.generate_contextual_suggestions`.  `remote` is the
outcome of the single `generate_content` call; an exception is caught and
routed to `_generate_fallback_suggestions`. -/
def generate_contextual_suggestions (session_context : String)
    (remote : Except String String) : String :=
  let analysis := analyze_session_components session_context
  match remote with
  | Except.ok replyText => format_suggestions (pyStrip replyText) analysis
  | Except.error _ => generate_fallback_suggestions analysis

/-- The JSON object printed back to the host by the hook
(`{"block": ..., "context": ..., "reason": ..., "error": ...}`, absent keys
modelled as `none`). -/
structure HookResult where
  block : Bool
  context : Option String
  reason : Option String
  error : Option String

/-- Embeds `CCGuide.read_transcript`: `readOutcome` is the result of opening and
reading the transcript file (`none` when `open`/`read` raises, which the
source catches and converts to the empty string). -/
def read_transcript (readOutcome : Option String) : String :=
  readOutcome.getD ""

/-- Outcome of one `process_stop_hook` call: the returned object, the
resulting world state, and whether the decision engine was consulted. -/
structure HookRun where
  result : HookResult
  state : EngineState
  decisionConsulted : Bool

/-- Embeds `CCGuide.process_stop_hook`: read the transcript, short-circuit on an
empty one, consult the decision engine, then conditionally the suggestion
engine.  `decisionRemote` and `suggestionRemote` are the outcomes of the two
(at most one each) remote calls. -/
def process_stop_hook (session_id : String) (readOutcome : Option String)
    (cfg : Config) (st : EngineState)
    (decisionRemote suggestionRemote : Except String String) : HookRun :=
  let session_context := read_transcript readOutcome
  if session_context = "" then ⟨⟨false, none, none, none⟩, st, false⟩
  else
    let d := should_suggest session_id session_context cfg st decisionRemote
    if d.verdict = false then ⟨⟨false, none, none, none⟩, d.state, true⟩
    else
      let suggestion := generate_contextual_suggestions session_context suggestionRemote
      if suggestion ≠ "" then
        ⟨⟨false, some suggestion, some "CCGuide suggestions available", none⟩, d.state, true⟩
      else ⟨⟨false, none, none, none⟩, d.state, true⟩

/-- The `main` entry point of `stop_hook_handler.py`: an empty transcript path
short-circuits to an error object, and any exception escaping the run is
caught and converted to `{"block": False, "error": "Hook handler failed: ..."}`.
`runOutcome` is the outcome of constructing `CCGuide` and running
`process_stop_hook` (`.error e` when an exception with message `e` escapes). -/
def main (transcript_path : String) (runOutcome : Except String HookResult) : HookResult :=
  if transcript_path = "" then
    ⟨false, none, none, some "No transcript path provided"⟩
  else
    match runOutcome with
    | Except.ok result => result
    | Except.error e => ⟨false, none, none, some ("Hook handler failed: " ++ e)⟩

/-- Modelled from the spec (§4.1, §8): the ordered rule table of the
session-type classifier, "first rule in priority order wins", priority
`project_setup > bug_fixing > feature_development > refactoring > testing >
deployment`, written as data so that first-match semantics is explicit.  Used
only as the comparison point for the refinement claim about
`classify_session_type`. -/
def classificationRules : List (List String × String) :=
  [ (["new project", "initial", "setup", "scaffold"], "project_setup"),
    (["bug", "fix", "error", "debug"], "bug_fixing"),
    (["feature", "implement", "add", "create"], "feature_development"),
    (["refactor", "cleanup", "optimize", "improve"], "refactoring"),
    (["test", "testing", "spec", "coverage"], "testing"),
    (["deploy", "release", "production", "ci/cd"], "deployment") ]

/-- Modelled from the spec: return the label of the first rule whose keyword
set matches, defaulting to `general_development`. -/
def firstMatch (rules : List (List String × String)) (context_lower : String) : String :=
  match rules with
  | [] => "general_development"
  | (kws, label) :: rest =>
      if kws.any (fun w => substrB w context_lower) then label
      else firstMatch rest context_lower

/-- Modelled from the spec: the spec-side session-type classifier, first
matching rule in priority order, over the lowercased transcript. -/
def firstMatchClassify (context : String) : String :=
  firstMatch classificationRules (pyLower context)

/-- The seven session-type categories named by the spec. -/
def sessionTypeCategories : List String :=
  ["project_setup", "bug_fixing", "feature_development", "refactoring",
   "testing", "deployment", "general_development"]

/-- Concrete config used by evaluation witnesses: suggestions on, no minimum
length, five-minute cooldown. -/
def wCfg : Config := ⟨some true, some 0, some 300⟩

/-- Concrete config used by evaluation witnesses: suggestions disabled. -/
def wCfgOff : Config := ⟨some false, some 0, some 300⟩

/-- Concrete engine state used by evaluation witnesses: no cooldown file,
clock at 0. -/
def wSt : EngineState := ⟨none, 0⟩

/-- Concrete transcript used by evaluation witnesses: it has code (`def `),
an error keyword and one complexity indicator (`todo`). -/
def wCtx : String := "def x todo error"

lemma eq_empty_of_length_zero (t : String) (h : t.length = 0) : t = "" := by
  cases t with
  | mk data =>
    cases data with
    | nil => rfl
    | cons a l => simp [String.length] at h

lemma append_ne_empty_right (s t : String) (h : t ≠ "") : s ++ t ≠ "" := by
  intro he
  apply h
  have hl := congrArg String.length he
  rw [String.length_append] at hl
  simp at hl
  exact eq_empty_of_length_zero t hl.2

lemma session_footer_ne_empty (a : SessionComponents) : session_footer a ≠ "" := by
  unfold session_footer
  split_ifs <;> exact append_ne_empty_right _ _ (by decide)

lemma fallback_suggestions_ne_empty (a : SessionComponents) :
    generate_fallback_suggestions a ≠ "" :=
  append_ne_empty_right _ _ (by decide)

lemma contextual_suggestions_ne_empty (ctx : String) (remote : Except String String) :
    generate_contextual_suggestions ctx remote ≠ "" := by
  cases remote with
  | ok r => exact append_ne_empty_right _ _ (session_footer_ne_empty _)
  | error e => exact fallback_suggestions_ne_empty _

lemma should_suggest_state_of_true (sid ctx : String) (cfg : Config) (st : EngineState)
    (remote : Except String String)
    (hpos : (should_suggest sid ctx cfg st remote).verdict = true) :
    (should_suggest sid ctx cfg st remote).state = update_cooldown st := by
  simp only [should_suggest] at hpos ⊢
  split_ifs at hpos ⊢ <;> cases remote <;> simp_all

lemma should_suggest_false_of_cooldown (sid ctx : String) (cfg : Config) (st : EngineState)
    (remote : Except String String) (h : is_in_cooldown cfg st sid = true) :
    (should_suggest sid ctx cfg st remote).verdict = false := by
  unfold should_suggest
  split_ifs <;> simp_all

/-- C1: for every session id and transcript-read outcome, `process_stop_hook`
returns an object whose `block` field is `false`; wrapped by `main`, both a
normal result and a caught exception yield `block = false` (the latter with
the error message recorded); and a nonexistent or unreadable transcript is
treated as an empty transcript, returning a bare `{block: false}` without the
decision engine ever being consulted. -/
theorem hook_block_always_false (sid path e : String) (readOutcome : Option String)
    (cfg : Config) (st : EngineState) (dr sr : Except String String) :
    (process_stop_hook sid readOutcome cfg st dr sr).result.block = false ∧
    (main path (Except.ok (process_stop_hook sid readOutcome cfg st dr sr).result)).block
      = false ∧
    (main path (Except.error e)).block = false ∧
    (main "t" (Except.error e)).error = some ("Hook handler failed: " ++ e) ∧
    process_stop_hook sid none cfg st dr sr = ⟨⟨false, none, none, none⟩, st, false⟩ := by
  have hblock : ∀ ro, (process_stop_hook sid ro cfg st dr sr).result.block = false := by
    intro ro
    simp only [process_stop_hook]
    split_ifs <;> rfl
  refine ⟨hblock readOutcome, ?_, ?_, rfl, rfl⟩
  · unfold main
    split_ifs
    · rfl
    · exact hblock readOutcome
  · unfold main
    split_ifs <;> rfl

/-- C2: when the three short-circuit checks pass and the remote classification
call succeeds with reply `r`, `should_suggest` returns `true` exactly when the
reply, stripped of surrounding whitespace and uppercased, equals the literal
token `YES`. -/
theorem should_suggest_yes_iff (sid ctx r : String) (cfg : Config) (st : EngineState)
    (h1 : cfg.enableSuggestions = true)
    (h2 : ¬ ((ctx.length : Int) < cfg.minSessionLength))
    (h3 : is_in_cooldown cfg st sid = false) :
    (should_suggest sid ctx cfg st (Except.ok r)).verdict = (pyUpper (pyStrip r) == "YES") := by
  unfold should_suggest
  simp [h1, h2, h3]

/-- Witness for C2 at the reply `"yes please"`, which is not treated as a yes. -/
theorem should_suggest_yes_iff_witness :
    wCfg.enableSuggestions = true ∧
    ¬ ((("x" : String).length : Int) < wCfg.minSessionLength) ∧
    is_in_cooldown wCfg wSt "s" = false ∧
    (should_suggest "s" "x" wCfg wSt (Except.ok "yes please")).verdict = false := by
  refine ⟨rfl, by decide, rfl, ?_⟩
  have h := should_suggest_yes_iff "s" "x" "yes please" wCfg wSt rfl (by decide) rfl
  rw [h]
  decide

/-- C3: when the three short-circuit checks pass and the remote classification
call fails, the error is not propagated: `should_suggest` returns the local
fallback score test — 1 point for length over 1000, 2 for code, 1 for errors,
1 for a positive complexity-indicator count — succeeding iff the score
reaches 3. -/
theorem should_suggest_fallback_score (sid ctx e : String) (cfg : Config) (st : EngineState)
    (h1 : cfg.enableSuggestions = true)
    (h2 : ¬ ((ctx.length : Int) < cfg.minSessionLength))
    (h3 : is_in_cooldown cfg st sid = false) :
    (should_suggest sid ctx cfg st (Except.error e)).verdict =
      decide (3 ≤
        (if (analyze_session_context ctx).length > 1000 then 1 else 0) +
        (if (analyze_session_context ctx).has_code then 2 else 0) +
        (if (analyze_session_context ctx).has_errors then 1 else 0) +
        (if (analyze_session_context ctx).complexity_indicators > 0 then 1 else 0)) := by
  unfold should_suggest
  simp [h1, h2, h3, fallback_decision]

/-- Witness for C3: a failing remote call on a transcript scoring 2+1+1 = 4
yields a positive verdict. -/
theorem should_suggest_fallback_score_witness :
    wCfg.enableSuggestions = true ∧
    ¬ ((wCtx.length : Int) < wCfg.minSessionLength) ∧
    is_in_cooldown wCfg wSt "s" = false ∧
    (should_suggest "s" wCtx wCfg wSt (Except.error "boom")).verdict = true := by
  refine ⟨rfl, by decide, rfl, ?_⟩
  have h := should_suggest_fallback_score "s" wCtx "boom" wCfg wSt rfl (by decide) rfl
  rw [h]
  decide

/-- C4: if suggestions are disabled in the config, or the transcript is
shorter than the minimum session length, `should_suggest` returns `false`
with the world state untouched and without attempting the remote call. -/
theorem should_suggest_short_circuit (sid ctx : String) (cfg : Config) (st : EngineState)
    (remote : Except String String)
    (h : cfg.enableSuggestions = false ∨ (ctx.length : Int) < cfg.minSessionLength) :
    should_suggest sid ctx cfg st remote = ⟨false, st, false⟩ := by
  unfold should_suggest
  split_ifs with h1 h2 h3 <;> try rfl
  rcases h with h | h
  · exact absurd h h1
  · exact absurd h h2

/-- Witness for C4 with suggestions disabled. -/
theorem should_suggest_short_circuit_witness :
    (wCfgOff.enableSuggestions = false ∨
      ((("abc" : String).length : Int) < wCfgOff.minSessionLength)) ∧
    should_suggest "s" "abc" wCfgOff wSt (Except.ok "YES") = ⟨false, wSt, false⟩ :=
  ⟨Or.inl rfl,
    should_suggest_short_circuit "s" "abc" wCfgOff wSt (Except.ok "YES") (Or.inl rfl)⟩

/-- C5: on every path where `should_suggest` returns `true` — the remote-YES
path and the local-fallback path alike — the cooldown file is overwritten with
the current timestamp before returning, and any subsequent call whose clock is
within the cooldown threshold of that timestamp returns `false`, whatever its
transcript and remote outcome. -/
theorem cooldown_recorded_on_positive (sid ctx : String) (cfg : Config) (st : EngineState)
    (remote : Except String String)
    (hpos : (should_suggest sid ctx cfg st remote).verdict = true) :
    (should_suggest sid ctx cfg st remote).state = update_cooldown st ∧
    ∀ (sid2 ctx2 : String) (now2 : ℚ) (remote2 : Except String String),
      now2 - st.now < cfg.suggestionCooldown →
      (should_suggest sid2 ctx2 cfg
        ⟨(should_suggest sid ctx cfg st remote).state.cooldownFile, now2⟩ remote2).verdict
        = false := by
  have hst := should_suggest_state_of_true sid ctx cfg st remote hpos
  refine ⟨hst, ?_⟩
  intro sid2 ctx2 now2 remote2 hwin
  rw [hst]
  apply should_suggest_false_of_cooldown
  simp [update_cooldown, is_in_cooldown]
  exact hwin

/-- Witness for C5: a fallback-path positive decision writes timestamp 0, and
a second call 10 seconds later is refused. -/
theorem cooldown_recorded_on_positive_witness :
    (should_suggest "s" wCtx wCfg wSt (Except.error "boom")).verdict = true ∧
    (should_suggest "s" wCtx wCfg wSt (Except.error "boom")).state = update_cooldown wSt ∧
    (should_suggest "t" wCtx wCfg
      ⟨(should_suggest "s" wCtx wCfg wSt (Except.error "boom")).state.cooldownFile, 10⟩
      (Except.ok "YES")).verdict = false := by
  have hpos : (should_suggest "s" wCtx wCfg wSt (Except.error "boom")).verdict = true := by
    decide
  have h := cooldown_recorded_on_positive "s" wCtx wCfg wSt (Except.error "boom") hpos
  refine ⟨hpos, h.1, h.2 "t" wCtx 10 (Except.ok "YES") ?_⟩
  show (10 : ℚ) - 0 < 300
  norm_num

/-- C6: `is_in_cooldown` is true exactly when the cooldown file exists, its
contents parse as a number `t`, and `now - t` is below the threshold; a file
that exists but cannot be read or parsed, or an absent file, yields `false`
(fail-open), and the check is total (never raises). -/
theorem is_in_cooldown_characterization (cfg : Config) (st : EngineState) (sid : String) :
    (is_in_cooldown cfg st sid = true ↔
      ∃ t : ℚ, st.cooldownFile = some (some t) ∧ st.now - t < cfg.suggestionCooldown) ∧
    (∀ now : ℚ, is_in_cooldown cfg ⟨some none, now⟩ sid = false) ∧
    (∀ now : ℚ, is_in_cooldown cfg ⟨none, now⟩ sid = false) := by
  refine ⟨?_, fun _ => rfl, fun _ => rfl⟩
  obtain ⟨file, now⟩ := st
  match file with
  | none => simp [is_in_cooldown]
  | some none => simp [is_in_cooldown]
  | some (some t) => simp [is_in_cooldown]

/-- C7: `generate_contextual_suggestions` returns non-empty text for every
transcript and every remote outcome; on success it is the stripped reply plus
the session-analysis footer, and on failure it is the fallback text, which
ends with the fixed unavailability disclaimer. -/
theorem generate_suggestions_nonempty (ctx r e : String) :
    generate_contextual_suggestions ctx (Except.ok r) ≠ "" ∧
    generate_contextual_suggestions ctx (Except.error e) ≠ "" ∧
    generate_contextual_suggestions ctx (Except.ok r) =
      pyStrip r ++ session_footer (analyze_session_components ctx) ∧
    ∃ s : String, generate_contextual_suggestions ctx (Except.error e) =
      s ++ unavailable_note :=
  ⟨contextual_suggestions_ne_empty ctx (Except.ok r),
   contextual_suggestions_ne_empty ctx (Except.error e),
   rfl, ⟨_, rfl⟩⟩

/-- C8: session-type classification is a total function into the seven
categories, and it agrees everywhere with the spec-side ordered-rule
classifier (first matching rule in the priority order `project_setup >
bug_fixing > feature_development > refactoring > testing > deployment` wins,
defaulting to `general_development`). -/
theorem classify_session_type_first_match (s : String) :
    classify_session_type s = firstMatchClassify s ∧
    classify_session_type s ∈ sessionTypeCategories :=
  ⟨rfl, by
    simp only [classify_session_type]
    split_ifs <;> simp [sessionTypeCategories]⟩

/-- C9 counterexample: on a run where the decision stage says yes, the hook's
`reason` field is the string `"CCGuide suggestions available"`, not the
claimed `"suggestions available"`. -/
theorem hook_reason_counterexample :
    (process_stop_hook "s" (some "abc") wCfg wSt
        (Except.ok "YES") (Except.ok "sugg")).result.reason =
      some "CCGuide suggestions available" ∧
    ¬ (process_stop_hook "s" (some "abc") wCfg wSt
        (Except.ok "YES") (Except.ok "sugg")).result.reason =
      some "suggestions available" := by
  constructor <;> decide

/-- C9 amended: when the transcript is non-empty and the decision stage
returns `true`, `process_stop_hook` returns `block = false`, the suggestion
stage's text in `context`, and the reason string
`"CCGuide suggestions available"`. -/
theorem hook_reason_ccguide (sid ctx : String) (cfg : Config) (st : EngineState)
    (dr sr : Except String String)
    (hne : ctx ≠ "")
    (hdec : (should_suggest sid ctx cfg st dr).verdict = true) :
    (process_stop_hook sid (some ctx) cfg st dr sr).result =
      ⟨false, some (generate_contextual_suggestions ctx sr),
        some "CCGuide suggestions available", none⟩ := by
  unfold process_stop_hook
  simp [read_transcript, hne, hdec, contextual_suggestions_ne_empty]

/-- Witness for the amended C9 at a concrete positive run. -/
theorem hook_reason_ccguide_witness :
    ("abc" : String) ≠ "" ∧
    (should_suggest "s" "abc" wCfg wSt (Except.ok "YES")).verdict = true ∧
    (process_stop_hook "s" (some "abc") wCfg wSt
        (Except.ok "YES") (Except.ok "sugg")).result =
      ⟨false, some (generate_contextual_suggestions "abc" (Except.ok "sugg")),
        some "CCGuide suggestions available", none⟩ :=
  ⟨by decide, by decide,
    hook_reason_ccguide "s" "abc" wCfg wSt (Except.ok "YES") (Except.ok "sugg")
      (by decide) (by decide)⟩

/-- C10: the decision is independent of the session identifier — for a fixed
transcript, config, cooldown-file state and remote outcome, two calls that
differ only in their session id return the same verdict, perform the same
cooldown write and the same remote attempt, and the cooldown check itself
ignores the session id (one global timestamp for all sessions). -/
theorem decision_session_id_independent (sid1 sid2 ctx : String) (cfg : Config)
    (st : EngineState) (remote : Except String String) :
    should_suggest sid1 ctx cfg st remote = should_suggest sid2 ctx cfg st remote ∧
    is_in_cooldown cfg st sid1 = is_in_cooldown cfg st sid2 :=
  ⟨rfl, rfl⟩

end CCGuideModel
